import Mathlib

/-!
Shallow embedding of the avalanche-classifier core (src/src/main.rs).

The embedding covers:
* the schema structs (`SnowTexture`, `MovementPattern`, `TerrainFeatures`,
  `VisualCharacteristics`, `AvalancheAnalysis`) with the Rust `f32` confidence
  modelled as `Rat` (the code only compares it against the literals 0.0 and
  100.0, and those comparisons agree with the rational order on all values
  `serde_json` can produce);
* the consistency-scoring and validation tail of `classify_image`
  (main.rs lines 558-655), with the possible `unwrap` panic on line 617
  modelled as the `none` result of `validate`;
* the `update` lifecycle state handling (`promise`/`result`/`error` fields,
  main.rs lines 189-223);
* a JSON tree together with a parser mirroring the `serde` derive semantics
  of the schema structs and a serializer, for the parsing and round-trip
  properties.
-/

namespace Avalanche

/-- Mirrors `struct SnowTexture` (main.rs lines 5-11). -/
structure SnowTexture where
  granular : Bool
  blocky : Bool
  fluffy : Bool
  density : String
deriving DecidableEq, Repr

/-- Mirrors `struct MovementPattern` (main.rs lines 13-19). -/
structure MovementPattern where
  starting_width : String
  propagation : String
  vertical_movement : Bool
  lateral_spread : Bool
deriving DecidableEq, Repr

/-- Mirrors `struct TerrainFeatures` (main.rs lines 21-27). -/
structure TerrainFeatures where
  slope_angle : Option String
  surface_roughness : String
  anchoring_points : Bool
  convex_rollover : Bool
deriving DecidableEq, Repr

/-- Mirrors `struct VisualCharacteristics` (main.rs lines 29-39). -/
structure VisualCharacteristics where
  powder_cloud : Bool
  fracture_line : Bool
  fracture_depth : Option String
  point_release : Bool
  debris_pattern : String
  snow_texture : SnowTexture
  movement_pattern : MovementPattern
  terrain : TerrainFeatures
deriving DecidableEq, Repr

/-- Mirrors `struct AvalancheAnalysis` (main.rs lines 41-48); `confidence_level`
is `f32` in the source, modelled as `Rat`. -/
structure AvalancheAnalysis where
  avalanche_present : Bool
  avalanche_type : String
  confidence_level : Rat
  terrain_features : List String
  visual_characteristics : VisualCharacteristics
deriving DecidableEq, Repr

/-- Rust `str::starts_with` on the character sequence. -/
def strStartsWith (s p : String) : Bool :=
  p.data.isPrefixOf s.data

/-- Rust `opt.as_ref().map_or(false, |a| a.starts_with("steep"))`
(main.rs lines 572 and 584). -/
def slopeSteep (slope : Option String) : Bool :=
  match slope with
  | none => false
  | some a => strStartsWith a "steep"

/-- `powder_score` block of `classify_image` (main.rs lines 565-574). -/
def powder_score (chars : VisualCharacteristics) : Int :=
  (if chars.powder_cloud then 3 else 0) +
  (if chars.snow_texture.fluffy then 3 else 0) +
  (if chars.movement_pattern.vertical_movement then 3 else 0) +
  (if chars.snow_texture.density = "low" then 1 else 0) +
  (if chars.movement_pattern.propagation = "chaotic" then 1 else 0) +
  (if slopeSteep chars.terrain.slope_angle then 1 else 0)

/-- `loose_snow_score` block of `classify_image` (main.rs lines 576-586). -/
def loose_snow_score (chars : VisualCharacteristics) : Int :=
  (if chars.movement_pattern.starting_width = "point" then 3 else 0) +
  (if chars.movement_pattern.propagation = "fan" then 3 else 0) +
  (if chars.snow_texture.granular then 3 else 0) +
  (if chars.debris_pattern = "fan-shaped" then 3 else 0) +
  (if chars.fracture_line then 0 else 1) +
  (if chars.snow_texture.density = "low" then 1 else 0) +
  (if slopeSteep chars.terrain.slope_angle then 1 else 0)

/-- `slab_score` block of `classify_image` (main.rs lines 588-598). -/
def slab_score (chars : VisualCharacteristics) : Int :=
  (if chars.fracture_line then 3 else 0) +
  (if chars.snow_texture.blocky then 3 else 0) +
  (if chars.movement_pattern.starting_width = "wide" then 3 else 0) +
  (if chars.movement_pattern.propagation = "linear" then 3 else 0) +
  (if chars.snow_texture.density = "high" then 1 else 0) +
  (if chars.debris_pattern = "linear" then 1 else 0) +
  (if chars.movement_pattern.lateral_spread then 1 else 0)

/-- Rust `Iterator::max_by_key` over the three-element array of
`(score, type)` pairs (main.rs lines 602-609): when several keys are equally
maximal the LAST such element is returned, hence the `≤` in the fold. -/
def maxByKeyLast (x y z : Int × String) : Int × String :=
  let a := if x.1 ≤ y.1 then y else x
  if a.1 ≤ z.1 then z else a

/-- Maximum of a list of integers; `none` on the empty list.  Models Rust
`Iterator::max` composed with `Option::copied` (main.rs lines 612-617). -/
def listMax : List Int → Option Int
  | [] => none
  | x :: xs => some (xs.foldl max x)

/-- The three category scores of an analysis, in source order. -/
def scoresOf (a : AvalancheAnalysis) : Int × Int × Int :=
  (powder_score a.visual_characteristics,
   loose_snow_score a.visual_characteristics,
   slab_score a.visual_characteristics)

/-- `(highest_score, expected_type)` from main.rs lines 602-609. -/
def highestPairOf (a : AvalancheAnalysis) : Int × String :=
  let s := scoresOf a
  maxByKeyLast (s.1, "powder") (s.2.1, "loose-snow") (s.2.2, "slab")

/-- `highest_score` (main.rs line 602). -/
def highestOf (a : AvalancheAnalysis) : Int :=
  (highestPairOf a).1

/-- `expected_type` (main.rs line 602). -/
def expectedOf (a : AvalancheAnalysis) : String :=
  (highestPairOf a).2

/-- `second_highest_score` before the `unwrap` (main.rs lines 612-616): the
greatest score strictly different from `highest_score`, `none` when all three
scores are equal (in which case the source `unwrap`s a `None` and panics). -/
def secondOf (a : AvalancheAnalysis) : Option Int :=
  let s := scoresOf a
  listMax (([s.1, s.2.1, s.2.2].filter (fun x => x ≠ highestOf a)))

/-- The typed rejection reasons of `classify_image` (the `anyhow!` early
returns at main.rs lines 620-653). -/
inductive ValidationError where
  | ambiguousEvidence
  | insufficientEvidence
  | inconsistentClassification (expected : String) (score : Int) (detected : String)
  | invalidCategory (detected : String)
  | confidenceOutOfRange (c : Rat)
deriving DecidableEq, Repr

/-- Outcome of the validation tail of `classify_image`. -/
inductive ClassifyResult where
  | ok (a : AvalancheAnalysis)
  | err (e : ValidationError)
deriving DecidableEq, Repr

/-- The vocabulary of the category check (main.rs line 641). -/
def canonicalTypes : List String := ["powder", "loose-snow", "slab", "none"]

/-- The category-vocabulary and confidence checks that run on every analysis,
after the scoring block (main.rs lines 641-653). -/
def postChecks (a : AvalancheAnalysis) : ClassifyResult :=
  if ¬ (a.avalanche_type ∈ canonicalTypes) then
    .err (.invalidCategory a.avalanche_type)
  else if a.confidence_level < 0 ∨ a.confidence_level > 100 then
    .err (.confidenceOutOfRange a.confidence_level)
  else
    .ok a

/-- The validation tail of `classify_image` applied to a parsed analysis
(main.rs lines 558-655).  `none` models the panic of the `unwrap` on line
617 (it fires exactly when all three scores are equal, making the filtered
list empty); `some r` is the returned `Ok`/`Err`. -/
def validate (a : AvalancheAnalysis) : Option ClassifyResult :=
  if a.avalanche_present then
    match secondOf a with
    | none => none
    | some second =>
      if highestOf a - second < 3 then some (.err .ambiguousEvidence)
      else if highestOf a < 6 then some (.err .insufficientEvidence)
      else if ¬ (a.avalanche_type = expectedOf a) then
        some (.err (.inconsistentClassification (expectedOf a) (highestOf a) a.avalanche_type))
      else some (postChecks a)
  else some (postChecks a)

/-! Concrete analyses used by the counterexample and witness theorems. -/

/-- A snow texture with no flag set and the non-scoring density value. -/
def baseSnow : SnowTexture :=
  { granular := false, blocky := false, fluffy := false, density := "medium" }

/-- A movement pattern matching no scoring rule. -/
def baseMovement : MovementPattern :=
  { starting_width := "undefined", propagation := "none",
    vertical_movement := false, lateral_spread := false }

/-- A terrain block matching no scoring rule. -/
def baseTerrain : TerrainFeatures :=
  { slope_angle := none, surface_roughness := "smooth",
    anchoring_points := false, convex_rollover := false }

/-- Characteristics matching no scoring rule except the loose-snow
`fracture_line` absence bonus. -/
def baseChars : VisualCharacteristics :=
  { powder_cloud := false, fracture_line := false, fracture_depth := none,
    point_release := false, debris_pattern := "none",
    snow_texture := baseSnow, movement_pattern := baseMovement,
    terrain := baseTerrain }

/-- Scores (6, 6, 3): powder and loose-snow tie at the top. -/
def tiedTopAnalysis : AvalancheAnalysis :=
  { avalanche_present := true
    avalanche_type := "loose-snow"
    confidence_level := 50
    terrain_features := []
    visual_characteristics :=
      { baseChars with
          powder_cloud := true
          fracture_line := true
          debris_pattern := "fan-shaped"
          snow_texture := { baseSnow with fluffy := true, granular := true } } }

/-- Scores (3, 3, 3): all three categories tie, the source panics. -/
def allTiedAnalysis : AvalancheAnalysis :=
  { avalanche_present := true
    avalanche_type := "powder"
    confidence_level := 50
    terrain_features := []
    visual_characteristics :=
      { baseChars with
          powder_cloud := true
          fracture_line := true
          snow_texture := { baseSnow with granular := true } } }

/-- Scores (0, 1, 0) with confidence 137: the scoring block rejects first. -/
def ambiguousBadConfidence : AvalancheAnalysis :=
  { avalanche_present := true
    avalanche_type := "none"
    confidence_level := 137
    terrain_features := []
    visual_characteristics := baseChars }

/-- Scores (0, 3, 6): best exactly 6, next-best exactly 3, category slab. -/
def boundary63 : AvalancheAnalysis :=
  { avalanche_present := true
    avalanche_type := "slab"
    confidence_level := 50
    terrain_features := []
    visual_characteristics :=
      { baseChars with
          fracture_line := true
          snow_texture := { baseSnow with granular := true, blocky := true } } }

/-- Scores (0, 3, 5): best 5, next-best 3 (margin 2). -/
def boundary53 : AvalancheAnalysis :=
  { avalanche_present := true
    avalanche_type := "slab"
    confidence_level := 50
    terrain_features := []
    visual_characteristics :=
      { baseChars with
          fracture_line := true
          snow_texture := { baseSnow with granular := true, density := "high" }
          movement_pattern := { baseMovement with lateral_spread := true } } }

/-- Scores (0, 0, 5): best 5 with next-best 0 (margin 5). -/
def boundary50 : AvalancheAnalysis :=
  { avalanche_present := true
    avalanche_type := "slab"
    confidence_level := 50
    terrain_features := []
    visual_characteristics :=
      { baseChars with
          fracture_line := true
          snow_texture := { baseSnow with density := "high" }
          movement_pattern := { baseMovement with lateral_spread := true } } }

/-- No hazard, canonical category, confidence 137. -/
def noneWithBadConfidence : AvalancheAnalysis :=
  { avalanche_present := false
    avalanche_type := "none"
    confidence_level := 137
    terrain_features := []
    visual_characteristics := baseChars }

/-! Lifecycle state handling of `update` (main.rs lines 50-56, 63-73,
189-223).  The `AvalancheClassifier` struct keeps `promise`, `result` and
`error` as three independent `Option` fields mutated in place.  The status of
the spawned promise is an environment fact, modelled by `PromiseStatus`:
`pending` while `promise.ready()` returns `None`, `ready o` once the spawned
thread has produced the outcome `o`. -/

/-- Observable status of the in-flight promise. -/
inductive PromiseStatus where
  | pending
  | ready (outcome : ClassifyResult)
deriving DecidableEq, Repr

/-- The `promise`/`result`/`error` fields of `AvalancheClassifier`
(main.rs lines 50-56); the display-only fields are omitted. -/
structure ClassifierState where
  promise : Option PromiseStatus
  result : Option AvalancheAnalysis
  error : Option ValidationError
deriving DecidableEq, Repr

/-- `AvalancheClassifier::new` (main.rs lines 63-73): all three fields start
as `None`. -/
def initState : ClassifierState :=
  { promise := none, result := none, error := none }

/-- The Analyze-button click handler (main.rs lines 190-201): it stores a
fresh, not-yet-ready promise and touches neither `result` nor `error`. -/
def submit (s : ClassifierState) : ClassifierState :=
  { s with promise := some .pending }

/-- The spawned thread finishing with outcome `o`: the pending promise
becomes ready.  No classifier field is written. -/
def resolvePromise (s : ClassifierState) (o : ClassifyResult) : ClassifierState :=
  if s.promise = some .pending then { s with promise := some (.ready o) }
  else s

/-- The per-frame `promise.ready()` match (main.rs lines 204-223): on
`Some(Ok(result))` it stores the result and clears the error, on
`Some(Err(err))` it stores the error and clears the result, and in both
cases drops the promise; on `None` (still pending) or with no promise it
changes nothing. -/
def pollStep (s : ClassifierState) : ClassifierState :=
  match s.promise with
  | none => s
  | some .pending => s
  | some (.ready (.ok r)) => { promise := none, result := some r, error := none }
  | some (.ready (.err e)) =>
      { promise := none, result := none, error := some e }

/-- One step of the consumer state machine: a button click, the background
thread completing, or a frame polling the promise. -/
inductive Step : ClassifierState → ClassifierState → Prop where
  | submit (s : ClassifierState) : Step s (submit s)
  | resolve (s : ClassifierState) (o : ClassifyResult) : Step s (resolvePromise s o)
  | poll (s : ClassifierState) : Step s (pollStep s)

/-- States reachable from `initState` by `Step`s. -/
inductive Reachable : ClassifierState → Prop where
  | init : Reachable initState
  | step {s t : ClassifierState} : Reachable s → Step s t → Reachable t

/-! JSON layer.  `serde_json::from_str::<AvalancheAnalysis>` deserializes the
derived structs (main.rs lines 5-48, 555-556): required fields must be
present with the right shape, `Option` fields accept a missing key or an
explicit `null` as `None`, and unknown keys are skipped (no
`deny_unknown_fields` attribute on any struct). -/

/-- A JSON value tree; numbers are modelled as rationals. -/
inductive Json where
  | null
  | bool (b : Bool)
  | num (q : Rat)
  | str (s : String)
  | arr (elems : List Json)
  | obj (fields : List (String × Json))

/-- Deserialization failures of the derived `Deserialize` impls. -/
inductive ParseErr where
  | missingField (name : String)
  | typeMismatch (name : String)
  | malformedPayload
deriving DecidableEq, Repr

/-- First binding of a key in the field list of an object. -/
def lookupField : List (String × Json) → String → Option Json
  | [], _ => none
  | (k, v) :: rest, name => if k = name then some v else lookupField rest name

/-- Required `bool` field. -/
def getBool (fields : List (String × Json)) (name : String) : Except ParseErr Bool :=
  match lookupField fields name with
  | some (.bool b) => .ok b
  | some _ => .error (.typeMismatch name)
  | none => .error (.missingField name)

/-- Required `String` field. -/
def getStr (fields : List (String × Json)) (name : String) : Except ParseErr String :=
  match lookupField fields name with
  | some (.str s) => .ok s
  | some _ => .error (.typeMismatch name)
  | none => .error (.missingField name)

/-- Required numeric (`f32`) field. -/
def getNum (fields : List (String × Json)) (name : String) : Except ParseErr Rat :=
  match lookupField fields name with
  | some (.num q) => .ok q
  | some _ => .error (.typeMismatch name)
  | none => .error (.missingField name)

/-- Required nested-object field. -/
def getObjFields (fields : List (String × Json)) (name : String) :
    Except ParseErr (List (String × Json)) :=
  match lookupField fields name with
  | some (.obj inner) => .ok inner
  | some _ => .error (.typeMismatch name)
  | none => .error (.missingField name)

/-- `Option<String>` field: a missing key and an explicit `null` both
deserialize to `None`; any other non-string shape is an error. -/
def getOptStr (fields : List (String × Json)) (name : String) :
    Except ParseErr (Option String) :=
  match lookupField fields name with
  | some (.str s) => .ok (some s)
  | some .null => .ok none
  | some _ => .error (.typeMismatch name)
  | none => .ok none

/-- Elements of a `Vec<String>` field. -/
def asStringList (name : String) : List Json → Except ParseErr (List String)
  | [] => .ok []
  | .str s :: rest =>
      match asStringList name rest with
      | .ok xs => .ok (s :: xs)
      | .error e => .error e
  | _ :: _ => .error (.typeMismatch name)

/-- Required `Vec<String>` field. -/
def getStrList (fields : List (String × Json)) (name : String) :
    Except ParseErr (List String) :=
  match lookupField fields name with
  | some (.arr xs) => asStringList name xs
  | some _ => .error (.typeMismatch name)
  | none => .error (.missingField name)

/-- Derived `Deserialize` for `SnowTexture`. -/
def parseSnowTexture (fields : List (String × Json)) : Except ParseErr SnowTexture := do
  let granular ← getBool fields "granular"
  let blocky ← getBool fields "blocky"
  let fluffy ← getBool fields "fluffy"
  let density ← getStr fields "density"
  return { granular, blocky, fluffy, density }

/-- Derived `Deserialize` for `MovementPattern`. -/
def parseMovementPattern (fields : List (String × Json)) :
    Except ParseErr MovementPattern := do
  let starting_width ← getStr fields "starting_width"
  let propagation ← getStr fields "propagation"
  let vertical_movement ← getBool fields "vertical_movement"
  let lateral_spread ← getBool fields "lateral_spread"
  return { starting_width, propagation, vertical_movement, lateral_spread }

/-- Derived `Deserialize` for `TerrainFeatures`; `slope_angle` is optional. -/
def parseTerrainFeatures (fields : List (String × Json)) :
    Except ParseErr TerrainFeatures := do
  let slope_angle ← getOptStr fields "slope_angle"
  let surface_roughness ← getStr fields "surface_roughness"
  let anchoring_points ← getBool fields "anchoring_points"
  let convex_rollover ← getBool fields "convex_rollover"
  return { slope_angle, surface_roughness, anchoring_points, convex_rollover }

/-- Derived `Deserialize` for `VisualCharacteristics`; `fracture_depth` is
optional. -/
def parseVisual (fields : List (String × Json)) :
    Except ParseErr VisualCharacteristics := do
  let powder_cloud ← getBool fields "powder_cloud"
  let fracture_line ← getBool fields "fracture_line"
  let fracture_depth ← getOptStr fields "fracture_depth"
  let point_release ← getBool fields "point_release"
  let debris_pattern ← getStr fields "debris_pattern"
  let snowFields ← getObjFields fields "snow_texture"
  let snow_texture ← parseSnowTexture snowFields
  let movementFields ← getObjFields fields "movement_pattern"
  let movement_pattern ← parseMovementPattern movementFields
  let terrainFields ← getObjFields fields "terrain"
  let terrain ← parseTerrainFeatures terrainFields
  return { powder_cloud, fracture_line, fracture_depth, point_release,
           debris_pattern, snow_texture, movement_pattern, terrain }

/-- Derived `Deserialize` for `AvalancheAnalysis`, applied to the decoded
message content (main.rs line 555). -/
def parseAnalysis : Json → Except ParseErr AvalancheAnalysis
  | .obj fields => do
      let avalanche_present ← getBool fields "avalanche_present"
      let avalanche_type ← getStr fields "avalanche_type"
      let confidence_level ← getNum fields "confidence_level"
      let terrain_features ← getStrList fields "terrain_features"
      let vcFields ← getObjFields fields "visual_characteristics"
      let visual_characteristics ← parseVisual vcFields
      return { avalanche_present, avalanche_type, confidence_level,
               terrain_features, visual_characteristics }
  | _ => .error .malformedPayload

/-- `Option<String>` under the derived `Serialize`: `None` becomes `null`. -/
def optStrJson : Option String → Json
  | none => .null
  | some s => .str s

/-- Derived `Serialize` for `SnowTexture`. -/
def serializeSnow (t : SnowTexture) : Json :=
  .obj [("granular", .bool t.granular), ("blocky", .bool t.blocky),
        ("fluffy", .bool t.fluffy), ("density", .str t.density)]

/-- Derived `Serialize` for `MovementPattern`. -/
def serializeMovement (m : MovementPattern) : Json :=
  .obj [("starting_width", .str m.starting_width),
        ("propagation", .str m.propagation),
        ("vertical_movement", .bool m.vertical_movement),
        ("lateral_spread", .bool m.lateral_spread)]

/-- Derived `Serialize` for `TerrainFeatures`. -/
def serializeTerrain (t : TerrainFeatures) : Json :=
  .obj [("slope_angle", optStrJson t.slope_angle),
        ("surface_roughness", .str t.surface_roughness),
        ("anchoring_points", .bool t.anchoring_points),
        ("convex_rollover", .bool t.convex_rollover)]

/-- Derived `Serialize` for `VisualCharacteristics`. -/
def serializeVisual (v : VisualCharacteristics) : Json :=
  .obj [("powder_cloud", .bool v.powder_cloud),
        ("fracture_line", .bool v.fracture_line),
        ("fracture_depth", optStrJson v.fracture_depth),
        ("point_release", .bool v.point_release),
        ("debris_pattern", .str v.debris_pattern),
        ("snow_texture", serializeSnow v.snow_texture),
        ("movement_pattern", serializeMovement v.movement_pattern),
        ("terrain", serializeTerrain v.terrain)]

/-- Derived `Serialize` for `AvalancheAnalysis`. -/
def serializeAnalysis (a : AvalancheAnalysis) : Json :=
  .obj [("avalanche_present", .bool a.avalanche_present),
        ("avalanche_type", .str a.avalanche_type),
        ("confidence_level", .num a.confidence_level),
        ("terrain_features", .arr (a.terrain_features.map .str)),
        ("visual_characteristics", serializeVisual a.visual_characteristics)]

/-- Parsing the serialization of a string list recovers the list. -/
theorem asStringList_map_str (name : String) (l : List String) :
    asStringList name (l.map Json.str) = .ok l := by
  induction l with
  | nil => rfl
  | cons x xs ih => simp [asStringList, List.map, ih]

/-! Spec-side definitions, used only to compare the behaviour of the code with
the wording of the specification. -/

/-- Indicator of a Boolean test, for the spec-side rule tables. -/
def ind (b : Bool) : Int := if b then 1 else 0

/-- Spec rule table for Powder as the specification words it: 3 points per
primary indicator, 1 point per secondary indicator. -/
def powder_score_spec (c : VisualCharacteristics) : Int :=
  3 * ind c.powder_cloud + 3 * ind c.snow_texture.fluffy +
    3 * ind c.movement_pattern.vertical_movement +
    1 * ind (decide (c.snow_texture.density = "low")) +
    1 * ind (decide (c.movement_pattern.propagation = "chaotic")) +
    1 * ind (slopeSteep c.terrain.slope_angle)

/-- Spec rule table for LooseSnow as the specification words it. -/
def loose_snow_score_spec (c : VisualCharacteristics) : Int :=
  3 * ind (decide (c.movement_pattern.starting_width = "point")) +
    3 * ind (decide (c.movement_pattern.propagation = "fan")) +
    3 * ind c.snow_texture.granular +
    3 * ind (decide (c.debris_pattern = "fan-shaped")) +
    1 * ind (!c.fracture_line) +
    1 * ind (decide (c.snow_texture.density = "low")) +
    1 * ind (slopeSteep c.terrain.slope_angle)

/-- Spec rule table for Slab as the specification words it. -/
def slab_score_spec (c : VisualCharacteristics) : Int :=
  3 * ind c.fracture_line + 3 * ind c.snow_texture.blocky +
    3 * ind (decide (c.movement_pattern.starting_width = "wide")) +
    3 * ind (decide (c.movement_pattern.propagation = "linear")) +
    1 * ind (decide (c.snow_texture.density = "high")) +
    1 * ind (decide (c.debris_pattern = "linear")) +
    1 * ind c.movement_pattern.lateral_spread

/-- The spec reading of the second score (claim C1): the second-largest of
the three scores counted with multiplicity, so a score tied with the highest
is itself the second. -/
def specSecondOf (a : AvalancheAnalysis) : Int :=
  let s := scoresOf a
  max (min s.1 s.2.1) (min (max s.1 s.2.1) s.2.2)

/-- The keys consumed by the derived `Deserialize` of `AvalancheAnalysis`. -/
def topFieldNames : List String :=
  ["avalanche_present", "avalanche_type", "confidence_level",
   "terrain_features", "visual_characteristics"]

/-- Required keys of `VisualCharacteristics` (`fracture_depth` is optional). -/
def requiredVisualFields : List String :=
  ["powder_cloud", "fracture_line", "point_release", "debris_pattern",
   "snow_texture", "movement_pattern", "terrain"]

/-- Required keys of `SnowTexture`. -/
def requiredSnowFields : List String :=
  ["granular", "blocky", "fluffy", "density"]

/-- Required keys of `MovementPattern`. -/
def requiredMovementFields : List String :=
  ["starting_width", "propagation", "vertical_movement", "lateral_spread"]

/-- Required keys of `TerrainFeatures` (`slope_angle` is optional). -/
def requiredTerrainFields : List String :=
  ["surface_roughness", "anchoring_points", "convex_rollover"]

/-- A no-hazard verdict whose characteristics carry the contradictory
tied-top evidence; used to check that `present == false` skips scoring. -/
def noHazardContradictory : AvalancheAnalysis :=
  { avalanche_present := false
    avalanche_type := "slab"
    confidence_level := 50
    terrain_features := []
    visual_characteristics := tiedTopAnalysis.visual_characteristics }

/-- A classifier state displaying a previously accepted result. -/
def resolvedState : ClassifierState :=
  { promise := none, result := some boundary63, error := none }

/-! Helper lemmas shared by the claim theorems. -/

/-- `postChecks` accepts when the category is canonical and the confidence is
within range. -/
theorem postChecks_ok (a : AvalancheAnalysis)
    (ht : a.avalanche_type ∈ canonicalTypes)
    (h0 : 0 ≤ a.confidence_level) (h1 : a.confidence_level ≤ 100) :
    postChecks a = .ok a := by
  unfold postChecks
  rw [if_neg (not_not_intro ht), if_neg (by push_neg; exact ⟨h0, h1⟩)]

/-- `postChecks` rejects an out-of-range confidence when the category is
canonical. -/
theorem postChecks_conf (a : AvalancheAnalysis)
    (ht : a.avalanche_type ∈ canonicalTypes)
    (hc : a.confidence_level < 0 ∨ a.confidence_level > 100) :
    postChecks a = .err (.confidenceOutOfRange a.confidence_level) := by
  unfold postChecks
  rw [if_neg (not_not_intro ht), if_pos hc]

/-- The category owning the highest score is one of the three scored
categories, hence canonical. -/
theorem expectedOf_mem_canonical (a : AvalancheAnalysis) :
    expectedOf a ∈ canonicalTypes := by
  simp only [expectedOf, highestPairOf, maxByKeyLast, canonicalTypes]
  split_ifs <;> simp

/-- Unfolding `validate` on a present hazard once the second score is known. -/
theorem validate_present (a : AvalancheAnalysis) (second : Int)
    (hp : a.avalanche_present = true) (hs : secondOf a = some second) :
    validate a =
      if highestOf a - second < 3 then some (.err .ambiguousEvidence)
      else if highestOf a < 6 then some (.err .insufficientEvidence)
      else if ¬ (a.avalanche_type = expectedOf a) then
        some (.err (.inconsistentClassification (expectedOf a) (highestOf a)
          a.avalanche_type))
      else some (postChecks a) := by
  unfold validate
  rw [if_pos hp, hs]

/-- `getBool` succeeds only when the key is bound. -/
theorem getBool_ok_isSome {fields : List (String × Json)} {name : String}
    {b : Bool} (h : getBool fields name = .ok b) :
    (lookupField fields name).isSome = true := by
  unfold getBool at h
  cases hl : lookupField fields name <;> rw [hl] at h
  · simp at h
  · rfl

/-- `getStr` succeeds only when the key is bound. -/
theorem getStr_ok_isSome {fields : List (String × Json)} {name : String}
    {s : String} (h : getStr fields name = .ok s) :
    (lookupField fields name).isSome = true := by
  unfold getStr at h
  cases hl : lookupField fields name <;> rw [hl] at h
  · simp at h
  · rfl

/-- `getNum` succeeds only when the key is bound. -/
theorem getNum_ok_isSome {fields : List (String × Json)} {name : String}
    {q : Rat} (h : getNum fields name = .ok q) :
    (lookupField fields name).isSome = true := by
  unfold getNum at h
  cases hl : lookupField fields name <;> rw [hl] at h
  · simp at h
  · rfl

/-- `getObjFields` succeeds only when the key is bound. -/
theorem getObjFields_ok_isSome {fields : List (String × Json)} {name : String}
    {inner : List (String × Json)} (h : getObjFields fields name = .ok inner) :
    (lookupField fields name).isSome = true := by
  unfold getObjFields at h
  cases hl : lookupField fields name <;> rw [hl] at h
  · simp at h
  · rfl

/-- `getStrList` succeeds only when the key is bound. -/
theorem getStrList_ok_isSome {fields : List (String × Json)} {name : String}
    {l : List String} (h : getStrList fields name = .ok l) :
    (lookupField fields name).isSome = true := by
  unfold getStrList at h
  cases hl : lookupField fields name <;> rw [hl] at h
  · simp at h
  · rfl

/-- Looking up any other key skips a leading binding. -/
theorem lookupField_cons_ne {k key : String} (h : ¬ k = key) (v : Json)
    (fields : List (String × Json)) :
    lookupField ((k, v) :: fields) key = lookupField fields key := by
  simp [lookupField, h]

/-- `getBool` skips a leading binding for any other key. -/
theorem getBool_cons_ne {k key : String} (h : ¬ k = key) (v : Json)
    (fields : List (String × Json)) :
    getBool ((k, v) :: fields) key = getBool fields key := by
  unfold getBool
  rw [lookupField_cons_ne h]

/-- `getStr` skips a leading binding for any other key. -/
theorem getStr_cons_ne {k key : String} (h : ¬ k = key) (v : Json)
    (fields : List (String × Json)) :
    getStr ((k, v) :: fields) key = getStr fields key := by
  unfold getStr
  rw [lookupField_cons_ne h]

/-- `getNum` skips a leading binding for any other key. -/
theorem getNum_cons_ne {k key : String} (h : ¬ k = key) (v : Json)
    (fields : List (String × Json)) :
    getNum ((k, v) :: fields) key = getNum fields key := by
  unfold getNum
  rw [lookupField_cons_ne h]

/-- `getObjFields` skips a leading binding for any other key. -/
theorem getObjFields_cons_ne {k key : String} (h : ¬ k = key) (v : Json)
    (fields : List (String × Json)) :
    getObjFields ((k, v) :: fields) key = getObjFields fields key := by
  unfold getObjFields
  rw [lookupField_cons_ne h]

/-- `getStrList` skips a leading binding for any other key. -/
theorem getStrList_cons_ne {k key : String} (h : ¬ k = key) (v : Json)
    (fields : List (String × Json)) :
    getStrList ((k, v) :: fields) key = getStrList fields key := by
  unfold getStrList
  rw [lookupField_cons_ne h]

/-- A successful top-level parse has found all five required keys. -/
theorem parseAnalysis_ok_lookups {fields : List (String × Json)}
    {a : AvalancheAnalysis} (h : parseAnalysis (Json.obj fields) = .ok a) :
    (lookupField fields "avalanche_present").isSome = true ∧
    (lookupField fields "avalanche_type").isSome = true ∧
    (lookupField fields "confidence_level").isSome = true ∧
    (lookupField fields "terrain_features").isSome = true ∧
    (lookupField fields "visual_characteristics").isSome = true := by
  unfold parseAnalysis at h
  cases h1 : getBool fields "avalanche_present" with
  | error e => simp [h1, bind, Except.bind] at h
  | ok v1 =>
  cases h2 : getStr fields "avalanche_type" with
  | error e => simp [h1, h2, bind, Except.bind] at h
  | ok v2 =>
  cases h3 : getNum fields "confidence_level" with
  | error e => simp [h1, h2, h3, bind, Except.bind] at h
  | ok v3 =>
  cases h4 : getStrList fields "terrain_features" with
  | error e => simp [h1, h2, h3, h4, bind, Except.bind] at h
  | ok v4 =>
  cases h5 : getObjFields fields "visual_characteristics" with
  | error e => simp [h1, h2, h3, h4, h5, bind, Except.bind] at h
  | ok v5 =>
  exact ⟨getBool_ok_isSome h1, getStr_ok_isSome h2, getNum_ok_isSome h3,
         getStrList_ok_isSome h4, getObjFields_ok_isSome h5⟩

/-- A successful `SnowTexture` parse has found all four required keys. -/
theorem parseSnowTexture_ok_lookups {fields : List (String × Json)}
    {t : SnowTexture} (h : parseSnowTexture fields = .ok t) :
    (lookupField fields "granular").isSome = true ∧
    (lookupField fields "blocky").isSome = true ∧
    (lookupField fields "fluffy").isSome = true ∧
    (lookupField fields "density").isSome = true := by
  unfold parseSnowTexture at h
  cases h1 : getBool fields "granular" with
  | error e => simp [h1, bind, Except.bind] at h
  | ok v1 =>
  cases h2 : getBool fields "blocky" with
  | error e => simp [h1, h2, bind, Except.bind] at h
  | ok v2 =>
  cases h3 : getBool fields "fluffy" with
  | error e => simp [h1, h2, h3, bind, Except.bind] at h
  | ok v3 =>
  cases h4 : getStr fields "density" with
  | error e => simp [h1, h2, h3, h4, bind, Except.bind] at h
  | ok v4 =>
  exact ⟨getBool_ok_isSome h1, getBool_ok_isSome h2, getBool_ok_isSome h3,
         getStr_ok_isSome h4⟩

/-- A successful `MovementPattern` parse has found all four required keys. -/
theorem parseMovementPattern_ok_lookups {fields : List (String × Json)}
    {m : MovementPattern} (h : parseMovementPattern fields = .ok m) :
    (lookupField fields "starting_width").isSome = true ∧
    (lookupField fields "propagation").isSome = true ∧
    (lookupField fields "vertical_movement").isSome = true ∧
    (lookupField fields "lateral_spread").isSome = true := by
  unfold parseMovementPattern at h
  cases h1 : getStr fields "starting_width" with
  | error e => simp [h1, bind, Except.bind] at h
  | ok v1 =>
  cases h2 : getStr fields "propagation" with
  | error e => simp [h1, h2, bind, Except.bind] at h
  | ok v2 =>
  cases h3 : getBool fields "vertical_movement" with
  | error e => simp [h1, h2, h3, bind, Except.bind] at h
  | ok v3 =>
  cases h4 : getBool fields "lateral_spread" with
  | error e => simp [h1, h2, h3, h4, bind, Except.bind] at h
  | ok v4 =>
  exact ⟨getStr_ok_isSome h1, getStr_ok_isSome h2, getBool_ok_isSome h3,
         getBool_ok_isSome h4⟩

/-- A successful `TerrainFeatures` parse has found the three required keys. -/
theorem parseTerrainFeatures_ok_lookups {fields : List (String × Json)}
    {t : TerrainFeatures} (h : parseTerrainFeatures fields = .ok t) :
    (lookupField fields "surface_roughness").isSome = true ∧
    (lookupField fields "anchoring_points").isSome = true ∧
    (lookupField fields "convex_rollover").isSome = true := by
  unfold parseTerrainFeatures at h
  cases h0 : getOptStr fields "slope_angle" with
  | error e => simp [h0, bind, Except.bind] at h
  | ok v0 =>
  cases h1 : getStr fields "surface_roughness" with
  | error e => simp [h0, h1, bind, Except.bind] at h
  | ok v1 =>
  cases h2 : getBool fields "anchoring_points" with
  | error e => simp [h0, h1, h2, bind, Except.bind] at h
  | ok v2 =>
  cases h3 : getBool fields "convex_rollover" with
  | error e => simp [h0, h1, h2, h3, bind, Except.bind] at h
  | ok v3 =>
  exact ⟨getStr_ok_isSome h1, getBool_ok_isSome h2, getBool_ok_isSome h3⟩

/-- A successful `VisualCharacteristics` parse has found all seven required
keys. -/
theorem parseVisual_ok_lookups {fields : List (String × Json)}
    {v : VisualCharacteristics} (h : parseVisual fields = .ok v) :
    (lookupField fields "powder_cloud").isSome = true ∧
    (lookupField fields "fracture_line").isSome = true ∧
    (lookupField fields "point_release").isSome = true ∧
    (lookupField fields "debris_pattern").isSome = true ∧
    (lookupField fields "snow_texture").isSome = true ∧
    (lookupField fields "movement_pattern").isSome = true ∧
    (lookupField fields "terrain").isSome = true := by
  unfold parseVisual at h
  cases h1 : getBool fields "powder_cloud" with
  | error e => simp [h1, bind, Except.bind] at h
  | ok v1 =>
  cases h2 : getBool fields "fracture_line" with
  | error e => simp [h1, h2, bind, Except.bind] at h
  | ok v2 =>
  cases h3 : getOptStr fields "fracture_depth" with
  | error e => simp [h1, h2, h3, bind, Except.bind] at h
  | ok v3 =>
  cases h4 : getBool fields "point_release" with
  | error e => simp [h1, h2, h3, h4, bind, Except.bind] at h
  | ok v4 =>
  cases h5 : getStr fields "debris_pattern" with
  | error e => simp [h1, h2, h3, h4, h5, bind, Except.bind] at h
  | ok v5 =>
  cases h6 : getObjFields fields "snow_texture" with
  | error e => simp [h1, h2, h3, h4, h5, h6, bind, Except.bind] at h
  | ok v6 =>
  cases h6p : parseSnowTexture v6 with
  | error e => simp [h1, h2, h3, h4, h5, h6, h6p, bind, Except.bind] at h
  | ok w6 =>
  cases h7 : getObjFields fields "movement_pattern" with
  | error e => simp [h1, h2, h3, h4, h5, h6, h6p, h7, bind, Except.bind] at h
  | ok v7 =>
  cases h7p : parseMovementPattern v7 with
  | error e => simp [h1, h2, h3, h4, h5, h6, h6p, h7, h7p, bind, Except.bind] at h
  | ok w7 =>
  cases h8 : getObjFields fields "terrain" with
  | error e => simp [h1, h2, h3, h4, h5, h6, h6p, h7, h7p, h8, bind, Except.bind] at h
  | ok v8 =>
  exact ⟨getBool_ok_isSome h1, getBool_ok_isSome h2, getBool_ok_isSome h4,
         getStr_ok_isSome h5, getObjFields_ok_isSome h6,
         getObjFields_ok_isSome h7, getObjFields_ok_isSome h8⟩

/-- Rewriting a weight-3 Boolean indicator into the conditional of the source. -/
theorem ind_mul3 (b : Bool) : 3 * ind b = if b then 3 else 0 := by
  cases b <;> rfl

/-- Rewriting a weight-1 Boolean indicator into the conditional of the source. -/
theorem ind_mul1 (b : Bool) : 1 * ind b = if b then 1 else 0 := by
  cases b <;> rfl

/-- Transposing a conditional on a negated flag. -/
theorem ite_not_bool (b : Bool) :
    (if (!b) = true then (1 : Int) else 0) = if b = true then 0 else 1 := by
  cases b <;> rfl

/-- Every step of the consumer machine preserves mutual exclusion of the
result and error fields. -/
theorem step_preserves_exclusive {s t : ClassifierState} (hst : Step s t)
    (ih : ¬ (s.result.isSome = true ∧ s.error.isSome = true)) :
    ¬ (t.result.isSome = true ∧ t.error.isSome = true) := by
  cases hst with
  | submit => exact ih
  | resolve o =>
      unfold resolvePromise
      split_ifs <;> exact ih
  | poll =>
      rcases hpm : s.promise with _ | st
      · simpa [pollStep, hpm] using ih
      · rcases st with _ | o
        · simpa [pollStep, hpm] using ih
        · rcases o with r | e <;> simp [pollStep, hpm]

/-! Claim theorems. -/

/-- C1 counterexample: an analysis whose top two category scores tie at
(6, 6, 3).  Under the reading of the claim the second score is 6, the margin is
0 < 3 and the result must be rejected with AmbiguousEvidence; the code
instead filters out every score equal to the highest, computes second = 3,
and accepts the result. -/
theorem c1_tied_top_accepted_cex :
    tiedTopAnalysis.avalanche_present = true ∧
    scoresOf tiedTopAnalysis = (6, 6, 3) ∧
    highestOf tiedTopAnalysis - specSecondOf tiedTopAnalysis < 3 ∧
    validate tiedTopAnalysis = some (.ok tiedTopAnalysis) := by decide

/-- C1 amended: for a present hazard the engine takes second to be the
greatest score strictly different from the highest; whenever such a score
exists and highest minus second is below 3 the result is rejected with
AmbiguousEvidence.  A top-two tie is not rejected on that account, and with
all three scores equal the second-score computation panics. -/
theorem c1_margin_rejection (a : AvalancheAnalysis) (second : Int)
    (hp : a.avalanche_present = true)
    (hs : secondOf a = some second)
    (hm : highestOf a - second < 3) :
    validate a = some (.err .ambiguousEvidence) := by
  rw [validate_present a second hp hs, if_pos hm]

/-- C1 witness: a concrete ambiguous analysis rejected by the margin rule. -/
theorem c1_margin_rejection_witness :
    validate ambiguousBadConfidence = some (.err .ambiguousEvidence) :=
  c1_margin_rejection ambiguousBadConfidence 0 (by decide) (by decide)
    (by decide)

/-- C2: with all three category scores equal (here 3, 3, 3) the filter that
computes the second-highest score retains nothing, the source `unwrap`s a
`None` (main.rs line 617) and validation panics instead of reaching a
verdict. -/
theorem c2_all_tied_panics :
    allTiedAnalysis.avalanche_present = true ∧
    scoresOf allTiedAnalysis = (3, 3, 3) ∧
    secondOf allTiedAnalysis = none ∧
    validate allTiedAnalysis = none := by decide

/-- C3 counterexample: a result with present == false and confidence 137 is
rejected with ConfidenceOutOfRange, not accepted as-is: the category and
confidence checks run even when scoring is skipped. -/
theorem c3_no_hazard_rejected_cex :
    noneWithBadConfidence.avalanche_present = false ∧
    validate noneWithBadConfidence ≠ some (.ok noneWithBadConfidence) ∧
    validate noneWithBadConfidence =
      some (.err (.confidenceOutOfRange 137)) := by decide

/-- C3 amended: a result with present == false skips scoring and is accepted
regardless of its characteristics, provided its category string is one of
the four canonical spellings and its confidence lies within 0 to 100. -/
theorem c3_no_hazard_accepted (a : AvalancheAnalysis)
    (hp : a.avalanche_present = false)
    (ht : a.avalanche_type ∈ canonicalTypes)
    (h0 : 0 ≤ a.confidence_level) (h1 : a.confidence_level ≤ 100) :
    validate a = some (.ok a) := by
  unfold validate
  rw [if_neg (by simp [hp]), postChecks_ok a ht h0 h1]

/-- C3 witness: a no-hazard verdict with internally contradictory
characteristics is accepted unchanged. -/
theorem c3_no_hazard_accepted_witness :
    validate noHazardContradictory = some (.ok noHazardContradictory) :=
  c3_no_hazard_accepted noHazardContradictory (by decide) (by decide)
    (by decide) (by decide)

/-- C4 counterexample: with present == true and an ambiguous score vector,
a confidence of 137 is not reported: the scoring rejection fires first, so
the rejection is not ConfidenceOutOfRange. -/
theorem c4_scoring_precedes_confidence_cex :
    ambiguousBadConfidence.confidence_level = 137 ∧
    (100 : Rat) < 137 ∧
    validate ambiguousBadConfidence = some (.err .ambiguousEvidence) ∧
    validate ambiguousBadConfidence ≠
      some (.err (.confidenceOutOfRange 137)) := by decide

/-- C4 amended: an out-of-range confidence is reported as
ConfidenceOutOfRange whenever the checks that precede it pass: the category
string is canonical and either no hazard is present or the scoring block
falls through (margin at least 3, best score at least 6, reported category
equal to the evidence-derived one). -/
theorem c4_confidence_rejection (a : AvalancheAnalysis)
    (hpass : a.avalanche_present = false ∨
      ∃ second, secondOf a = some second ∧ 3 ≤ highestOf a - second ∧
        6 ≤ highestOf a ∧ a.avalanche_type = expectedOf a)
    (ht : a.avalanche_type ∈ canonicalTypes)
    (hc : a.confidence_level < 0 ∨ a.confidence_level > 100) :
    validate a = some (.err (.confidenceOutOfRange a.confidence_level)) := by
  cases hp : a.avalanche_present with
  | false =>
      unfold validate
      rw [if_neg (by simp [hp]), postChecks_conf a ht hc]
  | true =>
      rcases hpass with hcontr | ⟨second, hs, hm, hh, hexp⟩
      · rw [hp] at hcontr
        exact absurd hcontr (by simp)
      · rw [validate_present a second hp hs, if_neg (not_lt.2 hm),
          if_neg (not_lt.2 hh), if_neg (not_not_intro hexp),
          postChecks_conf a ht hc]

/-- C4 witness: confidence 137 with every earlier check passing is rejected
as ConfidenceOutOfRange. -/
theorem c4_confidence_rejection_witness :
    validate noneWithBadConfidence =
      some (.err (.confidenceOutOfRange 137)) :=
  c4_confidence_rejection noneWithBadConfidence (Or.inl (by decide))
    (by decide) (Or.inr (by decide))

/-- C5 counterexample: best score 5 with next-best 3 (the same inputs with
best score reduced to 5, as the claim words it) has margin 2, so the code rejects it with
AmbiguousEvidence, not with InsufficientEvidence as the claim states. -/
theorem c5_best5_next3_cex :
    highestOf boundary53 = 5 ∧ secondOf boundary53 = some 3 ∧
    boundary53.avalanche_type = expectedOf boundary53 ∧
    validate boundary53 = some (.err .ambiguousEvidence) ∧
    validate boundary53 ≠ some (.err .insufficientEvidence) := by decide

/-- C5 amended: both thresholds are inclusive: best 6 with next-best 3 is
accepted; best 5 with next-best 3 is rejected with AmbiguousEvidence since
the margin check precedes the evidence-threshold check; best 5 with
next-best 2 is rejected with InsufficientEvidence; any margin of exactly 2
is rejected with AmbiguousEvidence. -/
theorem c5_inclusive_thresholds (a : AvalancheAnalysis)
    (hp : a.avalanche_present = true)
    (ht : a.avalanche_type = expectedOf a)
    (h0 : 0 ≤ a.confidence_level) (h1 : a.confidence_level ≤ 100) :
    (highestOf a = 6 → secondOf a = some 3 → validate a = some (.ok a)) ∧
    (highestOf a = 5 → secondOf a = some 3 →
        validate a = some (.err .ambiguousEvidence)) ∧
    (highestOf a = 5 → secondOf a = some 2 →
        validate a = some (.err .insufficientEvidence)) ∧
    (∀ s, secondOf a = some s → highestOf a - s = 2 →
        validate a = some (.err .ambiguousEvidence)) := by
  have hcanon : a.avalanche_type ∈ canonicalTypes := by
    rw [ht]
    exact expectedOf_mem_canonical a
  refine ⟨?_, ?_, ?_, ?_⟩
  · intro hh hs
    rw [validate_present a 3 hp hs, hh, if_neg (by norm_num),
      if_neg (by norm_num), if_neg (not_not_intro ht),
      postChecks_ok a hcanon h0 h1]
  · intro hh hs
    rw [validate_present a 3 hp hs, hh, if_pos (by norm_num)]
  · intro hh hs
    rw [validate_present a 2 hp hs, hh, if_neg (by norm_num),
      if_pos (by norm_num)]
  · intro s hs hm
    rw [validate_present a s hp hs, if_pos (by omega)]

/-- C5 witness: the concrete best-6 next-3 boundary analysis is accepted. -/
theorem c5_inclusive_thresholds_witness :
    validate boundary63 = some (.ok boundary63) :=
  (c5_inclusive_thresholds boundary63 (by decide) (by decide) (by decide)
    (by decide)).1 (by decide) (by decide)

/-- C6: for every characteristics value the three category scores computed
by the code equal the sums prescribed by the fixed rule table of the spec (3 per
primary indicator, 1 per secondary indicator, out-of-vocabulary strings
matching no rule). -/
theorem c6_scores_match_rule_table (c : VisualCharacteristics) :
    powder_score c = powder_score_spec c ∧
    loose_snow_score c = loose_snow_score_spec c ∧
    slab_score c = slab_score_spec c := by
  refine ⟨?_, ?_, ?_⟩ <;>
    simp only [powder_score, powder_score_spec, loose_snow_score,
      loose_snow_score_spec, slab_score, slab_score_spec, ind_mul3,
      ind_mul1, ite_not_bool, decide_eq_true_eq]

/-- C7 counterexample: submitting from a Resolved state leaves the prior
result observable: after the click the promise is pending while the old
result is still stored, contradicting the claimed discard-on-submit. -/
theorem c7_submit_keeps_stale_cex :
    (submit resolvedState).promise = some .pending ∧
    (submit resolvedState).result = some boundary63 := ⟨rfl, rfl⟩

/-- C7 amended: the Analyze click stores a fresh pending promise and leaves
both result and error untouched, so prior values stay observable while the
new request is in flight; they are replaced only when the promise resolves,
which sets exactly one of the two fields and clears the other. -/
theorem c7_submit_preserves_fields (s : ClassifierState)
    (r : AvalancheAnalysis) (e : ValidationError) :
    (submit s).promise = some .pending ∧
    (submit s).result = s.result ∧
    (submit s).error = s.error ∧
    pollStep { s with promise := some (.ready (.ok r)) } =
      { promise := none, result := some r, error := none } ∧
    pollStep { s with promise := some (.ready (.err e)) } =
      { promise := none, result := none, error := some e } :=
  ⟨rfl, rfl, rfl, rfl, rfl⟩

/-- C9: serializing an analysis that satisfies the confidence domain
constraint to the wire schema and parsing it back yields a field-for-field
equal value. -/
theorem c9_serialize_parse_roundtrip (a : AvalancheAnalysis)
    (h0 : 0 ≤ a.confidence_level) (h1 : a.confidence_level ≤ 100) :
    parseAnalysis (serializeAnalysis a) = .ok a := by
  obtain ⟨p, t, c, tf, v⟩ := a
  obtain ⟨pc, fl, fd, pr, dp, st, mp, tr⟩ := v
  obtain ⟨sa, sr, ap, cr⟩ := tr
  cases fd <;> cases sa <;>
    simp [parseAnalysis, serializeAnalysis, serializeVisual, serializeSnow,
      serializeMovement, serializeTerrain, parseVisual, parseSnowTexture,
      parseMovementPattern, parseTerrainFeatures, getBool, getStr, getNum,
      getStrList, getOptStr, getObjFields, lookupField, optStrJson,
      asStringList_map_str, bind, Except.bind, pure, Except.pure]

/-- C9 witness: the round-trip at a concrete in-range analysis. -/
theorem c9_serialize_parse_roundtrip_witness :
    parseAnalysis (serializeAnalysis tiedTopAnalysis) = .ok tiedTopAnalysis :=
  c9_serialize_parse_roundtrip tiedTopAnalysis (by decide) (by decide)

/-- C10: starting from the initial state (all of promise, result, error set
to none), every reachable state of the consumer machine has at most one of
result and error populated; resolution sets exactly one and clears the
other. -/
theorem c10_result_error_exclusive (s : ClassifierState)
    (h : Reachable s) :
    ¬ (s.result.isSome = true ∧ s.error.isSome = true) := by
  induction h with
  | init => simp [initState]
  | step hr hst ih => exact step_preserves_exclusive hst ih

/-- C10 witness: the invariant holds at the initial state. -/
theorem c10_result_error_exclusive_witness :
    ¬ (initState.result.isSome = true ∧ initState.error.isSome = true) :=
  c10_result_error_exclusive initState Reachable.init

/-- C8: a top-level payload missing any of the five required fields fails to
parse, as does a characteristics object (or one of its nested snow-texture,
movement-pattern or terrain objects) missing one of its required fields;
prepending an unknown field leaves the parse unchanged; the two optional
fields slope_angle and fracture_depth parse to none, without failure, when
absent or null. -/
theorem c8_parser_contract :
    (∀ fields name, name ∈ topFieldNames → lookupField fields name = none →
        ∃ e, parseAnalysis (Json.obj fields) = .error e) ∧
    (∀ fields name, name ∈ requiredVisualFields →
        lookupField fields name = none → ∃ e, parseVisual fields = .error e) ∧
    (∀ fields name, name ∈ requiredSnowFields →
        lookupField fields name = none →
        ∃ e, parseSnowTexture fields = .error e) ∧
    (∀ fields name, name ∈ requiredMovementFields →
        lookupField fields name = none →
        ∃ e, parseMovementPattern fields = .error e) ∧
    (∀ fields name, name ∈ requiredTerrainFields →
        lookupField fields name = none →
        ∃ e, parseTerrainFeatures fields = .error e) ∧
    (∀ fields name j, ¬ name ∈ topFieldNames →
        parseAnalysis (Json.obj ((name, j) :: fields)) =
          parseAnalysis (Json.obj fields)) ∧
    (∀ fields, lookupField fields "slope_angle" = none →
        getOptStr fields "slope_angle" = .ok none) ∧
    (∀ fields, lookupField fields "slope_angle" = some Json.null →
        getOptStr fields "slope_angle" = .ok none) ∧
    (∀ fields, lookupField fields "fracture_depth" = none →
        getOptStr fields "fracture_depth" = .ok none) ∧
    (∀ fields, lookupField fields "fracture_depth" = some Json.null →
        getOptStr fields "fracture_depth" = .ok none) := by
  refine ⟨?_, ?_, ?_, ?_, ?_, ?_, ?_, ?_, ?_, ?_⟩
  · intro fields name hmem hnone
    cases hp : parseAnalysis (Json.obj fields) with
    | error e => exact ⟨e, rfl⟩
    | ok a =>
        have hl := parseAnalysis_ok_lookups hp
        simp only [topFieldNames, List.mem_cons, List.not_mem_nil,
          or_false] at hmem
        rcases hmem with h | h | h | h | h <;> subst h <;>
          simp [hnone] at hl
  · intro fields name hmem hnone
    cases hp : parseVisual fields with
    | error e => exact ⟨e, rfl⟩
    | ok v =>
        have hl := parseVisual_ok_lookups hp
        simp only [requiredVisualFields, List.mem_cons, List.not_mem_nil,
          or_false] at hmem
        rcases hmem with h | h | h | h | h | h | h <;> subst h <;>
          simp [hnone] at hl
  · intro fields name hmem hnone
    cases hp : parseSnowTexture fields with
    | error e => exact ⟨e, rfl⟩
    | ok t =>
        have hl := parseSnowTexture_ok_lookups hp
        simp only [requiredSnowFields, List.mem_cons, List.not_mem_nil,
          or_false] at hmem
        rcases hmem with h | h | h | h <;> subst h <;> simp [hnone] at hl
  · intro fields name hmem hnone
    cases hp : parseMovementPattern fields with
    | error e => exact ⟨e, rfl⟩
    | ok m =>
        have hl := parseMovementPattern_ok_lookups hp
        simp only [requiredMovementFields, List.mem_cons, List.not_mem_nil,
          or_false] at hmem
        rcases hmem with h | h | h | h <;> subst h <;> simp [hnone] at hl
  · intro fields name hmem hnone
    cases hp : parseTerrainFeatures fields with
    | error e => exact ⟨e, rfl⟩
    | ok t =>
        have hl := parseTerrainFeatures_ok_lookups hp
        simp only [requiredTerrainFields, List.mem_cons, List.not_mem_nil,
          or_false] at hmem
        rcases hmem with h | h | h <;> subst h <;> simp [hnone] at hl
  · intro fields name j hnot
    simp only [topFieldNames, List.mem_cons, List.not_mem_nil, or_false,
      not_or] at hnot
    obtain ⟨h1, h2, h3, h4, h5⟩ := hnot
    simp only [parseAnalysis]
    rw [getBool_cons_ne h1 j fields, getStr_cons_ne h2 j fields,
      getNum_cons_ne h3 j fields, getStrList_cons_ne h4 j fields,
      getObjFields_cons_ne h5 j fields]
  · intro fields h
    unfold getOptStr
    rw [h]
  · intro fields h
    unfold getOptStr
    rw [h]
  · intro fields h
    unfold getOptStr
    rw [h]
  · intro fields h
    unfold getOptStr
    rw [h]

end Avalanche
